import Mathlib

/-!
Verification of the grpc_health_check extension (src/extension.go) against its
natural-language specification.

The Go source is shallowly embedded: durations are natural numbers of
nanoseconds (Go `time.Duration` units), HTTP outcomes are `Except String Nat`
(transport error message, or status code), errors are `Option String`, and the
two background goroutines are embedded as functions producing the finite
prefix of their event traces (the poll goroutine takes a fuel bound, since the
Go loop is infinite by design).
-/

namespace GrpcHealthCheck

/-- One second in Go `time.Duration` units (nanoseconds). -/
def second : Nat := 1000000000

/-- Serving status of the gRPC health protocol
(`grpc_health_v1.HealthCheckResponse_ServingStatus`, the constructors that
matter to this extension). -/
inductive ServingStatus where
  | serving
  | notServing
  | serviceUnknown
  deriving DecidableEq, Repr

/-- Configuration fields of the extension that src/extension.go reads:
`config.Grpc.NetAddr.Endpoint` (line 43), `config.StartPeriod` (line 54),
`config.HealthCheckHttpEndpoint` (line 58), `config.Interval` (line 68).
Durations in nanoseconds. -/
structure Config where
  grpcEndpoint : String
  startPeriod : Nat
  interval : Nat
  healthCheckHttpEndpoint : String
  deriving DecidableEq, Repr

/-- The mutable fields of `grpcHealthCheckExtension` (src/extension.go lines
24-30) that the lifecycle logic branches on: whether `gc.server` is non-nil
and whether `gc.stopCh` is non-nil.  The logger and telemetry settings are
opaque collaborators and carry no lifecycle state. -/
structure ExtState where
  config : Config
  serverSet : Bool
  stopChSet : Bool
  deriving DecidableEq, Repr

/-- Embedding of `newServer` (src/extension.go lines 95-101): a fresh extension
whose `server` and `stopCh` pointers are both nil. -/
def newServer (config : Config) : ExtState :=
  { config := config, serverSet := false, stopChSet := false }

/-- Timeout of the module-level shared HTTP client
(src/extension.go lines 18-22): `Timeout: 5 * time.Second`, fixed at package
initialization, independent of the extension configuration. -/
def clientTimeout : Nat := 5 * second

/-- An outbound HTTP request as issued by the probe. -/
structure HttpRequest where
  method : String
  url : String
  timeout : Nat
  deriving DecidableEq, Repr

/-- The HTTP requests issued by one probe iteration:
`client.Get(gc.config.HealthCheckHttpEndpoint)` (src/extension.go line 58) is a
single GET through the module-level client, so its client-side timeout is
`clientTimeout`. -/
def probeRequests (cfg : Config) : List HttpRequest :=
  [{ method := "GET", url := cfg.healthCheckHttpEndpoint, timeout := clientTimeout }]

/-- Verdict computed by one poll iteration (src/extension.go lines 57-65):
start from SERVING; a transport error (`err != nil`) forces NOT_SERVING;
otherwise a status code with `code < 200 || code >= 300` forces NOT_SERVING. -/
def pollStatus (r : Except String Nat) : ServingStatus :=
  let status := ServingStatus.serving
  match r with
  | Except.error _ => ServingStatus.notServing
  | Except.ok code =>
      if code < 200 ∨ 300 ≤ code then ServingStatus.notServing else status

/-- Observable events of the poll goroutine. -/
inductive PollEvent where
  | sleep (d : Nat)
  | probe (url : String)
  | publish (service : String) (status : ServingStatus)
  deriving DecidableEq, Repr

/-- Body of the infinite `for` loop of the poll goroutine (src/extension.go
lines 56-68), given the outcome `r` of this iteration's HTTP GET: issue the
probe, publish the verdict for the empty service name via
`hs.SetServingStatus("", status)`, then sleep for the configured interval. -/
def loopBody (cfg : Config) (r : Except String Nat) : List PollEvent :=
  [PollEvent.probe cfg.healthCheckHttpEndpoint,
   PollEvent.publish "" (pollStatus r),
   PollEvent.sleep cfg.interval]

/-- The poll goroutine's `for` loop unrolled `fuel` times starting at iteration
index `i`, where `results k` is the outcome of the HTTP GET of iteration `k`.
The Go loop has no break, return, or channel read: each unrolling step is
exactly `loopBody` followed by the rest of the loop. -/
def pollFor (cfg : Config) (results : Nat → Except String Nat) :
    Nat → Nat → List PollEvent
  | _, 0 => []
  | i, fuel + 1 => loopBody cfg (results i) ++ pollFor cfg results (i + 1) fuel

/-- Event trace of the poll goroutine (src/extension.go lines 53-70), truncated
to `fuel` iterations: `time.Sleep(gc.config.StartPeriod)` once, then the
infinite loop. -/
def pollGoroutine (cfg : Config) (results : Nat → Except String Nat)
    (fuel : Nat) : List PollEvent :=
  PollEvent.sleep cfg.startPeriod :: pollFor cfg results 0 fuel

/-- The `(serviceName, status)` pairs published by a list of poll events, in
order. -/
def publishedVerdicts : List PollEvent → List (String × ServingStatus)
  | [] => []
  | PollEvent.publish s v :: es => (s, v) :: publishedVerdicts es
  | _ :: es => publishedVerdicts es

/-- Whether a poll event is the HTTP probe. -/
def isProbe : PollEvent → Bool
  | PollEvent.probe _ => true
  | _ => false

/-- The message of the sentinel error `grpc.ErrServerStopped` that
`grpc.Server.Serve` returns after a (graceful) stop. -/
def errServerStopped : String := "grpc: the server has been stopped"

/-- Embedding of `errors.Is(err, target)` for the flat (unwrapped) errors of
this development: a nil error matches nothing, a non-nil error matches the
target exactly when it is that error. -/
def errorsIs (err : Option String) (target : String) : Bool :=
  match err with
  | none => false
  | some e => e = target

/-- Observable events of the serve goroutine. -/
inductive ServeEvent where
  | serveCall
  | reportFatal (e : String)
  | closeStopCh
  deriving DecidableEq, Repr

/-- Event trace of the serve goroutine (src/extension.go lines 72-79), where
`serveErr` is what `gc.server.Serve(ln)` returns: the `Serve` call, then a
fatal-error report to `gc.settings.ReportStatus` exactly when
`!errors.Is(err, grpc.ErrServerStopped) && err != nil`, then — last, because it
is deferred to goroutine exit — `close(gc.stopCh)`. -/
def serveGoroutine (serveErr : Option String) : List ServeEvent :=
  [ServeEvent.serveCall] ++
    (match serveErr with
     | none => []
     | some e =>
         if errorsIs (some e) errServerStopped then []
         else [ServeEvent.reportFatal e]) ++
    [ServeEvent.closeStopCh]

/-- Outcomes of the external calls `Start` makes: `gc.config.Grpc.ToServer`
(line 35) and `gc.config.Grpc.NetAddr.Listen` (line 41). -/
structure StartEnv where
  toServer : Except String Unit
  listen : Except String Unit
  deriving Repr

/-- Result of a `Start` call: the extension state it leaves behind, the error
it returns, whether `Listen` produced a live listener, and whether each of the
two goroutines was launched. -/
structure StartResult where
  state : ExtState
  err : Option String
  listenerBound : Bool
  pollLaunched : Bool
  serveLaunched : Bool
  deriving DecidableEq, Repr

/-- Embedding of `Start` (src/extension.go lines 32-82).  On a `ToServer`
error, return it with `gc.server` still nil (the assignment on line 39 comes
after the check).  Otherwise set `gc.server`; on a `Listen` error return the
wrapped bind error (line 43) with no listener, no `stopCh`, and no goroutines.
Otherwise create `stopCh` (line 46), register the health server, launch the
poll goroutine and the serve goroutine, and return nil. -/
def Start (gc : ExtState) (env : StartEnv) : StartResult :=
  match env.toServer with
  | Except.error e =>
      { state := gc, err := some e,
        listenerBound := false, pollLaunched := false, serveLaunched := false }
  | Except.ok _ =>
      let gc1 := { gc with serverSet := true }
      match env.listen with
      | Except.error e =>
          { state := gc1,
            err := some ("failed to bind to address " ++ gc.config.grpcEndpoint
              ++ ": " ++ e),
            listenerBound := false, pollLaunched := false, serveLaunched := false }
      | Except.ok _ =>
          { state := { gc1 with stopChSet := true }, err := none,
            listenerBound := true, pollLaunched := true, serveLaunched := true }

/-- Actions `Shutdown` can perform on the gRPC server and the stop channel.
`gracefulStop` is `grpc.Server.GracefulStop` (drain in-flight RPCs, accept no
new ones); `forceStop` is the abrupt `grpc.Server.Stop` — the source never
calls it; `waitStopCh` is the blocking receive `<-gc.stopCh`, which completes
only once the serve goroutine's deferred `close(gc.stopCh)` has run. -/
inductive ShutdownAction where
  | gracefulStop
  | forceStop
  | waitStopCh
  deriving DecidableEq, Repr

/-- Embedding of `Shutdown` (src/extension.go lines 84-93): if `gc.server` is
nil, return nil at once; otherwise call `GracefulStop`, then, if `gc.stopCh`
is non-nil, block on it; return nil.  The extension state is returned
unchanged — `Shutdown` writes no field. -/
def Shutdown (gc : ExtState) : ExtState × List ShutdownAction × Option String :=
  if gc.serverSet = false then (gc, [], none)
  else
    (gc,
     [ShutdownAction.gracefulStop]
       ++ (if gc.stopChSet then [ShutdownAction.waitStopCh] else []),
     none)

/-- Modelled from the spec: the status table that `health.NewServer()` (the
off-the-shelf gRPC health protocol server collaborator, src/extension.go line
47) starts with — the collaborator initializes its map with the empty service
name at SERVING, and the spec's scenario table relies on that default before
the first probe fires. -/
def healthNewServer : String → Option ServingStatus :=
  fun service => if service = "" then some ServingStatus.serving else none

/-- Embedding of the collaborator's `SetServingStatus`: overwrite the entry of
one service name. -/
def setServingStatus (tbl : String → Option ServingStatus) (service : String)
    (st : ServingStatus) : String → Option ServingStatus :=
  fun s => if s = service then some st else tbl s

/-- Fold the `publish` events of a poll trace into the health status table. -/
def applyPublishes (tbl : String → Option ServingStatus) :
    List PollEvent → (String → Option ServingStatus)
  | [] => tbl
  | PollEvent.publish s v :: es => applyPublishes (setServingStatus tbl s v) es
  | _ :: es => applyPublishes tbl es

/-- Embedding of the collaborator's `Check` on the status table: the stored
status when the service is known, SERVICE_UNKNOWN otherwise. -/
def check (tbl : String → Option ServingStatus) (service : String) :
    ServingStatus :=
  match tbl service with
  | some st => st
  | none => ServingStatus.serviceUnknown

/-- Spec-side definition for the refinement check of claim C7, following the
spec's words: section 3 describes a `PollConfig` that holds `endpoint`,
`startDelay`, `interval`, and `requestTimeout` together as one immutable
configuration record. -/
structure PollConfigSpec where
  endpoint : String
  startDelay : Nat
  interval : Nat
  requestTimeout : Nat
  deriving DecidableEq, Repr

/-- Sample configuration used by concrete witnesses. -/
def sampleConfig : Config :=
  { grpcEndpoint := "localhost:13133", startPeriod := second, interval := second,
    healthCheckHttpEndpoint := "http://localhost:8080/health" }

/-- Sample environment in which both external calls of `Start` succeed. -/
def envOk : StartEnv := { toServer := Except.ok (), listen := Except.ok () }

/- ## Helper lemmas -/

/-- The verdict of an iteration is never SERVICE_UNKNOWN. -/
theorem pollStatus_binary (r : Except String Nat) :
    pollStatus r = ServingStatus.serving ∨ pollStatus r = ServingStatus.notServing := by
  unfold pollStatus
  cases r with
  | error e => exact Or.inr rfl
  | ok code =>
      dsimp only
      split
      · exact Or.inr rfl
      · exact Or.inl rfl

/-- Unrolling one more iteration appends one more loop body at the end. -/
theorem pollFor_snoc (cfg : Config) (results : Nat → Except String Nat) :
    ∀ (n i : Nat), pollFor cfg results i (n + 1) =
      pollFor cfg results i n ++ loopBody cfg (results (i + n)) := by
  intro n
  induction n with
  | zero => intro i; simp [pollFor]
  | succ m ih =>
      intro i
      show loopBody cfg (results i) ++ pollFor cfg results (i + 1) (m + 1) =
        loopBody cfg (results i) ++ pollFor cfg results (i + 1) m
          ++ loopBody cfg (results (i + (m + 1)))
      rw [ih (i + 1), List.append_assoc]
      have h : i + 1 + m = i + (m + 1) := by omega
      rw [h]

/-- Closed form of the `for` loop's trace from iteration 0. -/
theorem pollFor_closed (cfg : Config) (results : Nat → Except String Nat)
    (n : Nat) :
    pollFor cfg results 0 n =
      ((List.range n).map (fun k => loopBody cfg (results k))).flatten := by
  induction n with
  | zero => rfl
  | succ m ih => rw [pollFor_snoc, List.range_succ]; simp [ih]

/-- Closed form of the poll goroutine's trace: the warm-up sleep once, then
one `[probe, publish, sleep interval]` block per iteration. -/
theorem pollGoroutine_closed (cfg : Config) (results : Nat → Except String Nat)
    (n : Nat) :
    pollGoroutine cfg results n =
      PollEvent.sleep cfg.startPeriod ::
        ((List.range n).map (fun k =>
          [PollEvent.probe cfg.healthCheckHttpEndpoint,
           PollEvent.publish "" (pollStatus (results k)),
           PollEvent.sleep cfg.interval])).flatten := by
  unfold pollGoroutine
  rw [pollFor_closed]
  simp [loopBody]

/-- `publishedVerdicts` distributes over append. -/
theorem publishedVerdicts_append (a b : List PollEvent) :
    publishedVerdicts (a ++ b) = publishedVerdicts a ++ publishedVerdicts b := by
  induction a with
  | nil => rfl
  | cons e es ih => cases e <;> simp [publishedVerdicts, ih]

/-- The verdicts a trace of `n` iterations publishes: one per iteration, each
for the empty service name, each the iteration's classification. -/
theorem publishedVerdicts_pollGoroutine (cfg : Config)
    (results : Nat → Except String Nat) (n : Nat) :
    publishedVerdicts (pollGoroutine cfg results n) =
      (List.range n).map (fun k => ("", pollStatus (results k))) := by
  show publishedVerdicts (pollFor cfg results 0 n) = _
  induction n with
  | zero => rfl
  | succ m ih =>
      rw [pollFor_snoc, publishedVerdicts_append, ih, List.range_succ]
      simp [loopBody, publishedVerdicts]

/-- Everything before the first probe is exactly the single warm-up sleep. -/
theorem pollGoroutine_takeWhile (cfg : Config)
    (results : Nat → Except String Nat) (n : Nat) :
    (pollGoroutine cfg results n).takeWhile (fun e => ! isProbe e) =
      [PollEvent.sleep cfg.startPeriod] := by
  cases n with
  | zero => rfl
  | succ m =>
      unfold pollGoroutine pollFor loopBody
      simp [List.takeWhile, isProbe]

/-- The serve goroutine closes the stop channel exactly once, as its very last
event (the `close` is deferred to goroutine exit). -/
theorem serveGoroutine_close_last (serveErr : Option String) :
    (serveGoroutine serveErr).getLast? = some ServeEvent.closeStopCh
    ∧ (serveGoroutine serveErr).count ServeEvent.closeStopCh = 1 := by
  cases serveErr with
  | none => exact ⟨rfl, rfl⟩
  | some e =>
      by_cases he : e = errServerStopped
      · have h1 : serveGoroutine (some e) =
            [ServeEvent.serveCall, ServeEvent.closeStopCh] := by
          simp [serveGoroutine, errorsIs, he]
        rw [h1]; exact ⟨rfl, rfl⟩
      · have h1 : serveGoroutine (some e) =
            [ServeEvent.serveCall, ServeEvent.reportFatal e,
             ServeEvent.closeStopCh] := by
          simp [serveGoroutine, errorsIs, he]
        rw [h1]
        refine ⟨rfl, ?_⟩
        simp [List.count_cons]

/- ## Claim theorems -/

/-- C1: in every poll iteration, a transport error or timeout of the HTTP GET,
or a response status code outside [200,300), leads to a published verdict of
NOT_SERVING, while a status code inside [200,300) leads to SERVING. -/
theorem verdict_matches_http_outcome (cfg : Config)
    (results : Nat → Except String Nat) (n i : Nat) (h : i < n) :
    (publishedVerdicts (pollGoroutine cfg results n)).get? i =
      some ("",
        match results i with
        | Except.error _ => ServingStatus.notServing
        | Except.ok code =>
            if 200 ≤ code ∧ code < 300 then ServingStatus.serving
            else ServingStatus.notServing) := by
  rw [publishedVerdicts_pollGoroutine, List.get?_map, List.get?_range h]
  show some ("", pollStatus (results i)) = _
  cases hr : results i with
  | error e => rfl
  | ok code =>
      refine congrArg some (congrArg (Prod.mk "") ?_)
      unfold pollStatus
      dsimp only
      split_ifs with h1 h2 <;> first | rfl | omega

/-- Concrete instance of C1: a 204 response publishes SERVING. -/
theorem verdict_matches_http_outcome_witness :
    (0 : Nat) < 1 ∧
    (publishedVerdicts (pollGoroutine sampleConfig (fun _ => Except.ok 204) 1)).get? 0 =
      some ("", ServingStatus.serving) :=
  ⟨by decide,
   verdict_matches_http_outcome sampleConfig (fun _ => Except.ok 204) 1 0 (by decide)⟩

/-- C2: when `Start` returns an error (server construction or listener bind
failed), neither goroutine was launched, no listener is live, and the stop
channel was never created. -/
theorem start_error_no_partial_state (cfg : Config) (env : StartEnv) (e : String)
    (h : (Start (newServer cfg) env).err = some e) :
    (Start (newServer cfg) env).pollLaunched = false
    ∧ (Start (newServer cfg) env).serveLaunched = false
    ∧ (Start (newServer cfg) env).listenerBound = false
    ∧ (Start (newServer cfg) env).state.stopChSet = false := by
  rcases env with ⟨ts, ln⟩
  cases ts <;> cases ln <;> simp_all [Start, newServer]

/-- Concrete instance of C2: a server-construction failure launches nothing. -/
theorem start_error_no_partial_state_witness :
    (Start (newServer sampleConfig)
        { toServer := Except.error "boom", listen := Except.ok () }).err = some "boom"
    ∧ ((Start (newServer sampleConfig)
          { toServer := Except.error "boom", listen := Except.ok () }).pollLaunched = false
      ∧ (Start (newServer sampleConfig)
          { toServer := Except.error "boom", listen := Except.ok () }).serveLaunched = false
      ∧ (Start (newServer sampleConfig)
          { toServer := Except.error "boom", listen := Except.ok () }).listenerBound = false
      ∧ (Start (newServer sampleConfig)
          { toServer := Except.error "boom", listen := Except.ok () }).state.stopChSet = false) :=
  ⟨rfl, start_error_no_partial_state sampleConfig
    { toServer := Except.error "boom", listen := Except.ok () } "boom" rfl⟩

/-- C3: the serve goroutine reports a fault to the telemetry collaborator
exactly when `Serve` returned a non-nil error different from the
`grpc.ErrServerStopped` sentinel; the sentinel itself — what `Serve` returns
after the graceful stop that `Shutdown` requests — is never reported. -/
theorem serve_fault_reported_iff_not_sentinel (serveErr : Option String) (e : String) :
    (ServeEvent.reportFatal e ∈ serveGoroutine serveErr ↔
      serveErr = some e ∧ e ≠ errServerStopped)
    ∧ ServeEvent.reportFatal e ∉ serveGoroutine (some errServerStopped) := by
  constructor
  · cases serveErr with
    | none => simp [serveGoroutine]
    | some e2 =>
        by_cases h : e2 = errServerStopped
        · subst h
          simp [serveGoroutine, errorsIs]
          rintro rfl
          simp
        · simp [serveGoroutine, errorsIs, h]
          constructor
          · rintro rfl
            exact ⟨rfl, h⟩
          · rintro ⟨rfl, h2⟩
            rfl
  · simp [serveGoroutine, errorsIs]

/-- Concrete instance of C3: a transport error is reported, and no report ever
happens when `Serve` returned the sentinel. -/
theorem serve_fault_reported_witness :
    ServeEvent.reportFatal "connection reset" ∈ serveGoroutine (some "connection reset")
    ∧ ServeEvent.reportFatal "connection reset" ∉ serveGoroutine (some errServerStopped) :=
  ⟨(serve_fault_reported_iff_not_sentinel (some "connection reset") "connection reset").1.mpr
      ⟨rfl, by decide⟩,
   (serve_fault_reported_iff_not_sentinel (some errServerStopped) "connection reset").2⟩

/-- C4: the poll goroutine sleeps for the start period exactly once, at the
head of its trace, then cycles probe → publish → sleep-interval with flat
cadence (the same interval sleep after every iteration, whatever its outcome);
the trace of `n + 1` iterations strictly extends that of `n` iterations (the
loop never terminates), and `Shutdown` leaves the extension state — which
holds no handle to the poll loop at all — unchanged. -/
theorem poll_loop_cadence (cfg : Config) (results : Nat → Except String Nat)
    (n : Nat) :
    pollGoroutine cfg results n =
      PollEvent.sleep cfg.startPeriod ::
        ((List.range n).map (fun k =>
          [PollEvent.probe cfg.healthCheckHttpEndpoint,
           PollEvent.publish "" (pollStatus (results k)),
           PollEvent.sleep cfg.interval])).flatten
    ∧ (∃ rest, rest ≠ [] ∧
        pollGoroutine cfg results (n + 1) = pollGoroutine cfg results n ++ rest)
    ∧ (∀ gc : ExtState, (Shutdown gc).1 = gc) := by
  refine ⟨pollGoroutine_closed cfg results n,
    ⟨loopBody cfg (results n), by simp [loopBody], ?_⟩, ?_⟩
  · show PollEvent.sleep cfg.startPeriod :: pollFor cfg results 0 (n + 1) = _
    rw [pollFor_snoc]
    simp [pollGoroutine]
  · intro gc
    unfold Shutdown
    split <;> rfl

/-- C5: after a successful `Start`, `Shutdown` performs the graceful stop
(never the abrupt one) and then blocks on the stop channel; since the serve
goroutine closes that channel exactly once, as its last event before exiting,
the receive completes only once the serve goroutine has exited, so `Shutdown`
never returns while the serve loop is still running. -/
theorem shutdown_waits_for_serve_exit (cfg : Config) (env : StartEnv)
    (serveErr : Option String)
    (h : (Start (newServer cfg) env).err = none) :
    Shutdown (Start (newServer cfg) env).state =
      ((Start (newServer cfg) env).state,
       [ShutdownAction.gracefulStop, ShutdownAction.waitStopCh], none)
    ∧ ShutdownAction.forceStop ∉ (Shutdown (Start (newServer cfg) env).state).2.1
    ∧ (serveGoroutine serveErr).getLast? = some ServeEvent.closeStopCh
    ∧ (serveGoroutine serveErr).count ServeEvent.closeStopCh = 1 := by
  rcases env with ⟨ts, ln⟩
  cases ts with
  | error e => simp [Start, newServer] at h
  | ok u =>
      cases ln with
      | error e => simp [Start, newServer] at h
      | ok u2 =>
          refine ⟨rfl, ?_, (serveGoroutine_close_last serveErr).1,
            (serveGoroutine_close_last serveErr).2⟩
          show ShutdownAction.forceStop ∉
            [ShutdownAction.gracefulStop, ShutdownAction.waitStopCh]
          decide

/-- Concrete instance of C5: a started extension shuts down with a graceful
stop followed by the wait on the stop channel. -/
theorem shutdown_waits_for_serve_exit_witness :
    (Start (newServer sampleConfig) envOk).err = none
    ∧ (Shutdown (Start (newServer sampleConfig) envOk).state =
        ((Start (newServer sampleConfig) envOk).state,
         [ShutdownAction.gracefulStop, ShutdownAction.waitStopCh], none)
      ∧ ShutdownAction.forceStop ∉
          (Shutdown (Start (newServer sampleConfig) envOk).state).2.1
      ∧ (serveGoroutine (some errServerStopped)).getLast? =
          some ServeEvent.closeStopCh
      ∧ (serveGoroutine (some errServerStopped)).count ServeEvent.closeStopCh = 1) :=
  ⟨rfl, shutdown_waits_for_serve_exit sampleConfig envOk (some errServerStopped) rfl⟩

/-- C6: `Shutdown` on a never-started extension — `gc.server` still nil —
returns success immediately, performs no action, and changes no state. -/
theorem shutdown_never_started_noop (cfg : Config) :
    Shutdown (newServer cfg) = (newServer cfg, [], none) := rfl

/-- C7 counterexample: the probe's client-side timeout is the module-level
client's fixed 5 seconds, and it differs from the `requestTimeout` stored in a
spec-shaped `PollConfig` carrying 7 seconds — so the timeout used is not the
one the configuration holds. -/
theorem probe_timeout_not_from_config_counterexample :
    ((probeRequests sampleConfig).map HttpRequest.timeout) = [clientTimeout]
    ∧ clientTimeout ≠
        PollConfigSpec.requestTimeout
          { endpoint := "http://localhost:8080/health", startDelay := second,
            interval := second, requestTimeout := 7 * second } := by
  refine ⟨rfl, ?_⟩
  simp [clientTimeout, second]

/-- C7 (amended): every probe issues exactly one HTTP GET to the configured
endpoint; its client-side timeout is the fixed 5-second value of the
module-level shared HTTP client — not a field of the configuration — and the
same fixed timeout bounds every probe for the process lifetime, whatever the
configuration. -/
theorem probe_single_get_fixed_timeout (cfg : Config) :
    probeRequests cfg =
      [{ method := "GET", url := cfg.healthCheckHttpEndpoint,
         timeout := clientTimeout }]
    ∧ clientTimeout = 5 * second
    ∧ ∀ cfg2 : Config, (probeRequests cfg2).map HttpRequest.timeout = [clientTimeout] :=
  ⟨rfl, rfl, fun _ => rfl⟩

/-- C8: every publication in the poll trace — and the poll loop's
`SetServingStatus` call on src/extension.go line 66 is the only status
publication in the whole extension — targets the empty service name, and the
published verdict is SERVING or NOT_SERVING, never SERVICE_UNKNOWN. -/
theorem publish_only_empty_service_binary (cfg : Config)
    (results : Nat → Except String Nat) (n : Nat) (s : String) (v : ServingStatus)
    (h : PollEvent.publish s v ∈ pollGoroutine cfg results n) :
    s = "" ∧ (v = ServingStatus.serving ∨ v = ServingStatus.notServing) := by
  rw [pollGoroutine_closed] at h
  rcases List.mem_cons.mp h with h1 | h2
  · exact absurd h1 (by simp)
  · rw [List.mem_flatten] at h2
    rcases h2 with ⟨l, hl, hel⟩
    rw [List.mem_map] at hl
    rcases hl with ⟨k, hk, rfl⟩
    simp only [List.mem_cons, List.mem_singleton] at hel
    rcases hel with h3 | h3 | h3
    · exact absurd h3 (by simp)
    · injection h3 with hs hv
      subst hs
      subst hv
      exact ⟨rfl, pollStatus_binary (results k)⟩
    · exact absurd h3 (by simp)

/-- Concrete instance of C8: the verdict published after a 200 response is for
the empty service name and is SERVING. -/
theorem publish_only_empty_service_binary_witness :
    PollEvent.publish "" ServingStatus.serving ∈
      pollGoroutine sampleConfig (fun _ => Except.ok 200) 1
    ∧ ("" = "" ∧ (ServingStatus.serving = ServingStatus.serving
        ∨ ServingStatus.serving = ServingStatus.notServing)) := by
  have hm : PollEvent.publish "" ServingStatus.serving ∈
      pollGoroutine sampleConfig (fun _ => Except.ok 200) 1 := by decide
  exact ⟨hm, publish_only_empty_service_binary sampleConfig
    (fun _ => Except.ok 200) 1 "" ServingStatus.serving hm⟩

/-- C9: before the first probe of the poll trace there is only the warm-up
sleep — no publication — so the status table of the freshly constructed health
protocol server is untouched during warm-up and still holds its initial
default, under which `Check` on the empty service name answers SERVING,
whatever the probe results would be. -/
theorem warmup_default_serving (cfg : Config)
    (results : Nat → Except String Nat) (n : Nat) :
    (∀ s v, PollEvent.publish s v ∉
        (pollGoroutine cfg results n).takeWhile (fun e => ! isProbe e))
    ∧ (∀ service, applyPublishes healthNewServer
          ((pollGoroutine cfg results n).takeWhile (fun e => ! isProbe e)) service
        = healthNewServer service)
    ∧ check healthNewServer "" = ServingStatus.serving := by
  rw [pollGoroutine_takeWhile]
  refine ⟨?_, ?_, rfl⟩
  · intro s v h
    simp at h
  · intro service
    rfl

/-- Concrete instance of C9: with the backend unreachable the whole warm-up
window, the default table still answers SERVING. -/
theorem warmup_default_serving_witness :
    check healthNewServer "" = ServingStatus.serving :=
  (warmup_default_serving sampleConfig (fun _ => Except.error "connection refused") 3).2.2

/-- C10: when server construction succeeds but the bind fails, `Start` returns
the wrapped bind error with `gc.server` set and `gc.stopCh` still nil, and a
subsequent `Shutdown` succeeds without blocking: it invokes `GracefulStop` on
the never-serving server and, thanks to the nil guard on the stop channel,
never waits on it. -/
theorem bind_failure_then_shutdown_safe (cfg : Config) (e : String) :
    (Start (newServer cfg)
        { toServer := Except.ok (), listen := Except.error e }).err
      = some ("failed to bind to address " ++ cfg.grpcEndpoint ++ ": " ++ e)
    ∧ (Start (newServer cfg)
        { toServer := Except.ok (), listen := Except.error e }).state.serverSet = true
    ∧ (Start (newServer cfg)
        { toServer := Except.ok (), listen := Except.error e }).state.stopChSet = false
    ∧ Shutdown (Start (newServer cfg)
        { toServer := Except.ok (), listen := Except.error e }).state
      = ((Start (newServer cfg)
          { toServer := Except.ok (), listen := Except.error e }).state,
         [ShutdownAction.gracefulStop], none) :=
  ⟨rfl, rfl, rfl, rfl⟩

end GrpcHealthCheck
